import Mathlib

/-!
Shallow embedding of the core of the `contract_interfacer` repository:
the calldata validator/decoder and invocation builder
(`src/contract/purse_executor.rs`), the CSV ledger store (`src/file.rs`,
`src/utils.rs`), and the derivation-index resolution and effect ordering
of the command orchestrator (`src/cli/commands.rs`).

Machine integers are modelled as `Nat` with explicit bounds where the
source type matters (`U256` values are `Nat < 2^256`, addresses are
`Nat < 2^160`, `u32` arithmetic wraps modulo `2^32`).  Fallible Rust code
returns `Option`/`Except`-like values; a Rust `panic!`/out-of-bounds
index/`unwrap` on `None`-like data is modelled as a distinguished
`none`/`panic` outcome.
-/

/-- Decimal-digit test, matching Rust's `u8::is_ascii_digit` range check. -/
def isDecDigit (c : Char) : Bool :=
  ('0' ≤ c && c ≤ '9')

/-- Hexadecimal-digit test (both cases), as accepted by `rustc_hex` decoding. -/
def isHexDigit (c : Char) : Bool :=
  ('0' ≤ c && c ≤ '9') || ('a' ≤ c && c ≤ 'f') || ('A' ≤ c && c ≤ 'F')

/-- Numeric value of a hexadecimal digit. -/
def hexVal (c : Char) : Nat :=
  if '0' ≤ c && c ≤ '9' then c.toNat - 48
  else if 'a' ≤ c && c ≤ 'f' then c.toNat - 87
  else if 'A' ≤ c && c ≤ 'F' then c.toNat - 55
  else 0

/-- Model of `ethers::types::U256::from_dec_str` (the `uint` crate): scans the
bytes of the string left to right; any non-digit byte is an error, and the
accumulated value must stay below `2^256`.  An empty string yields `0`. -/
def U256.fromDecStr (s : String) : Option Nat :=
  s.data.foldl
    (fun acc c =>
      match acc with
      | none => none
      | some n =>
        if isDecDigit c then
          let n' := n * 10 + (c.toNat - 48)
          if n' < 2 ^ 256 then some n' else none
        else none)
    (some 0)

/-- Model of `ethers::types::Address` (`H160`) `FromStr`: an optional `0x`
prefix followed by exactly 40 hexadecimal digits; the address value is the
big-endian interpretation of those digits. -/
def Address.fromStr (s : String) : Option Nat :=
  let t := match s.data with
    | '0' :: 'x' :: rest => rest
    | l => l
  if t.length = 40 && t.all isHexDigit then
    some (t.foldl (fun acc c => acc * 16 + hexVal c) 0)
  else none

/-- Model of `Address::zero()`. -/
def Address.zero : Nat := 0

/-- Two lowercase hexadecimal digits of one byte, as printed by `{:02x}`. -/
def hexByte (b : Nat) : String :=
  let digit := fun n => String.singleton (Char.ofNat (if n < 10 then 48 + n else 87 + n))
  digit (b / 16 % 16) ++ digit (b % 16)

/-- Byte `i` (big-endian, `0 ≤ i ≤ 19`) of a 160-bit address value. -/
def Address.byte (a i : Nat) : Nat :=
  a / 2 ^ (8 * (19 - i)) % 256

/-- Model of the `Display`/`to_string()` rendering of `H160` in the
`fixed-hash` crate: `0x`, the first two bytes, a `…` ellipsis character,
then the last two bytes, all in lowercase hex.  This truncated form is what
`write_to_csv` stores in the `Sender` and `Recipient` ledger columns. -/
def Address.display (a : Nat) : String :=
  "0x" ++ hexByte (Address.byte a 0) ++ hexByte (Address.byte a 1) ++ "…"
    ++ hexByte (Address.byte a 18) ++ hexByte (Address.byte a 19)

/-- Wallet handle (`src/wallet.rs`); only its identity is relevant to the
embedded core, so it is modelled by its derived address value. -/
structure Wallet where
  address : Nat
deriving DecidableEq, Repr

/-- Model of `validate_purse_calldata` from `src/contract/purse_executor.rs`
(lines 23–41) — the validator actually imported by the live pipeline in
`src/cli/commands.rs`.  Rust match guards that fail fall through to the
catch-all `Unsupported function` arms. -/
def validate_purse_calldata (func : String) (calldata : Option (List String)) :
    Except String Unit :=
  match func, calldata with
  | "address", none => .ok ()
  | "minted", none => .ok ()
  | "mintingCost", none => .ok ()
  | "balanceOf", some data =>
    if data.length = 1 then .ok () else .error ("Unsupported function: " ++ func)
  | "owned", some data =>
    if data.length = 1 then .ok () else .error ("Unsupported function: " ++ func)
  | "mintERC721", some data =>
    if data.length = 1 then .ok () else .error ("Unsupported function: " ++ func)
  | "transfer", some data =>
    if data.length = 2 then .ok () else .error ("Unsupported function: " ++ func)
  | "mint", some data =>
    if data.length = 2 then .ok () else .error ("Unsupported function: " ++ func)
  | _, some _ => .error ("Unsupported function: " ++ func)
  | _, none => .error ("Unsupported function: " ++ func)

/-- Model of the dead near-duplicate `validate_purse_calldata` in
`src/cli/validate.rs` (a historical snapshot that is not declared in
`src/cli/mod.rs` and therefore not part of the compiled module tree);
there `mintERC721` is grouped with the two-argument functions. -/
def validate_purse_calldata_cli_snapshot (func : String)
    (calldata : Option (List String)) : Except String Unit :=
  match func, calldata with
  | "address", none => .ok ()
  | "minted", none => .ok ()
  | "mintingCost", none => .ok ()
  | "balanceOf", some data =>
    if data.length = 1 then .ok () else .error "Unsupported function"
  | "owned", some data =>
    if data.length = 1 then .ok () else .error "Unsupported function"
  | "transfer", some data =>
    if data.length = 2 then .ok () else .error "Unsupported function"
  | "mintERC721", some data =>
    if data.length = 2 then .ok () else .error "Unsupported function"
  | "mint", some data =>
    if data.length = 2 then .ok () else .error "Unsupported function"
  | _, some _ => .error "Unsupported function"
  | _, none => .error "Unsupported function"

/-- Seven-slot calldata destructuring result of `destruct_purse_calldata`. -/
abbrev Destructed :=
  Option String × Option String × Option String × Option String ×
    Option String × Option String × Option String

/-- Model of `destruct_purse_calldata` (`purse_executor.rs` lines 51–67).
The Rust body indexes `calldata[0]` (and `calldata[1]` for the two-argument
functions) without a length check; an out-of-bounds index panics, modelled
here as the outer `none`. -/
def destruct_purse_calldata (func : String) (calldata : List String) :
    Option Destructed :=
  match func with
  | "balanceOf" | "owned" | "mintERC721" =>
    match calldata[0]? with
    | some val => some (some val, none, none, none, none, none, none)
    | none => none
  | "transfer" | "mint" =>
    match calldata[0]?, calldata[1]? with
    | some val1, some val2 => some (some val1, some val2, none, none, none, none, none)
    | _, _ => none
  | _ => some (none, none, none, none, none, none, none)

/-- Model of `transfer_or_mint_recipient_n_calldata` (`purse_executor.rs`
lines 82–107).  The Rust body calls `.unwrap()` on both the destructured
slots and the parse results, so a missing slot or an unparsable string
panics; both are modelled as `none`.  A returned pair is
(recipient address, calldata value). -/
def transfer_or_mint_recipient_n_calldata (func : String)
    (calldata : List String) : Option (Nat × Nat) :=
  match destruct_purse_calldata func calldata with
  | none => none
  | some (a, b, _, _, _, _, _) =>
    match func with
    | "mintERC721" =>
      match a with
      | none => none
      | some s =>
        match U256.fromDecStr s with
        | none => none
        | some v => some (Address.zero, v)
    | "transfer" | "mint" =>
      match a, b with
      | some sa, some sb =>
        match Address.fromStr sa, U256.fromDecStr sb with
        | some r, some v => some (r, v)
        | _, _ => none
      | _, _ => none
    | _ => some (Address.zero, 0)

/-- Closed invocation variants of `Purse404FunctionCall`
(`purse_executor.rs` lines 110–119). -/
inductive Purse404FunctionCall where
  | Address : Purse404FunctionCall
  | BalanceOf : Nat → Purse404FunctionCall
  | Minted : Purse404FunctionCall
  | MintingCost : Purse404FunctionCall
  | Owned : Nat → Purse404FunctionCall
  | Transfer : Wallet → Nat → Nat → Purse404FunctionCall
  | MintERC721 : Wallet → Nat → Nat → Purse404FunctionCall
  | Mint : Wallet → Nat → Nat → Purse404FunctionCall
deriving DecidableEq, Repr

/-- Outcome of `Purse404FunctionCall::from_data`: a built call, a returned
error (either a propagated parse error from `?`, or the
`Unsupported function` report), or a panic from an out-of-bounds
`calldata[i]` index. -/
inductive BuildOutcome where
  | ok : Purse404FunctionCall → BuildOutcome
  | parseError : BuildOutcome
  | unsupported : String → BuildOutcome
  | panic : BuildOutcome
deriving DecidableEq, Repr

/-- Model of `Purse404FunctionCall::from_data` (`purse_executor.rs` lines
132–166).  Each arm first indexes `calldata[0]`/`calldata[1]` (panic when
out of bounds) and then parses with `?` (returned error when the string does
not parse). -/
def Purse404FunctionCall.from_data (function : String) (message_value : Nat)
    (calldata : List String) (wallet : Wallet) : BuildOutcome :=
  match function with
  | "address" => .ok .Address
  | "balanceOf" =>
    match calldata[0]? with
    | none => .panic
    | some s =>
      match Address.fromStr s with
      | none => .parseError
      | some addr => .ok (.BalanceOf addr)
  | "minted" => .ok .Minted
  | "mintingCost" => .ok .MintingCost
  | "owned" =>
    match calldata[0]? with
    | none => .panic
    | some s =>
      match Address.fromStr s with
      | none => .parseError
      | some addr => .ok (.Owned addr)
  | "transfer" =>
    match calldata[0]? with
    | none => .panic
    | some s0 =>
      match Address.fromStr s0 with
      | none => .parseError
      | some toAddr =>
        match calldata[1]? with
        | none => .panic
        | some s1 =>
          match U256.fromDecStr s1 with
          | none => .parseError
          | some amount => .ok (.Transfer wallet toAddr amount)
  | "mintERC721" =>
    match calldata[0]? with
    | none => .panic
    | some s0 =>
      match U256.fromDecStr s0 with
      | none => .parseError
      | some mint_unit => .ok (.MintERC721 wallet mint_unit message_value)
  | "mint" =>
    match calldata[0]? with
    | none => .panic
    | some s0 =>
      match Address.fromStr s0 with
      | none => .parseError
      | some toAddr =>
        match calldata[1]? with
        | none => .panic
        | some s1 =>
          match U256.fromDecStr s1 with
          | none => .parseError
          | some amount => .ok (.Mint wallet toAddr amount)
  | _ => .unsupported ("Unsupported function: " ++ function)

/-- Pad a decimal string on the left with zeros to 18 digits, as the digits
of `n % 10^18` appear after the decimal point. -/
def padZeros18 (s : String) : String :=
  String.mk (List.replicate (18 - s.length) '0') ++ s

/-- Drop trailing `'0'` characters, matching how `BigDecimal` long division
stops once the remainder is zero and so prints no trailing fractional
zeros. -/
def stripTrailingZeros (s : String) : String :=
  String.mk (s.data.reverse.dropWhile (fun c => c = '0')).reverse

/-- Model of `str_wei_to_eth` (`src/utils.rs` lines 63–68): the input string
is parsed as an exact decimal (every call site passes `U256::to_string()`
output, i.e. a decimal digit string) and divided by `10^18`; `BigDecimal`
division by `10^18` is exact and its `to_string` prints the integer part,
and the fractional part only when nonzero, without trailing zeros. -/
def str_wei_to_eth (wei : String) : String :=
  let n := if wei.data.all isDecDigit then
    wei.data.foldl (fun acc c => acc * 10 + (c.toNat - 48)) 0 else 0
  let q := n / 10 ^ 18
  let r := n % 10 ^ 18
  if r = 0 then Nat.repr q
  else Nat.repr q ++ "." ++ stripTrailingZeros (padZeros18 (Nat.repr r))

/-- The fixed 20-column header schema of `write_to_csv`
(`src/file.rs` lines 141–151). -/
def expected_headers : List String :=
  ["Transaction Hash", "Derivation",
   "Sender",
   "Sender Balance Before (ETH)", "Sender Balance After (ETH)",
   "Sender Balance Before (ERC20)", "Sender Balance After (ERC20)",
   "Recipient",
   "Recipient Balance Before (ETH)", "Recipient Balance After (ETH)",
   "Recipient Balance Before (ERC20)", "Recipient Balance After (ERC20)",
   "Function", "Msg Value", "Calldata Value", "Msg.sender Owned Token IDs",
   "Tx Fee", "Gas Price", "Gas Used", "Receipt JSON"]

/-- The header-mismatch condition of `write_to_csv` (`src/file.rs` lines
160–161): length differs, or some zipped pair of fields differs. -/
def header_mismatch (headers_read : List String) : Bool :=
  (headers_read.length != expected_headers.length)
    || !((headers_read.zip expected_headers).all (fun p => p.1 == p.2))

/-- The 20-field data row assembled by `write_to_csv` (`src/file.rs` lines
181–224): optional `U256` quantities default to zero (`unwrap_or` with
`U256::from(0)`), monetary quantities pass through `str_wei_to_eth`,
addresses are rendered with the (truncated) `H160` `Display`, and the owned
token-ID list is comma-joined (empty string when absent). -/
def ledgerRow (tx_hash gas_price gas_used tx_fee receipt_json_str call_function : String)
    (derivation_number : Nat) (msg_sender : Nat)
    (sender_eth_balance_bef sender_eth_balance_aft : Option Nat)
    (sender_erc20_balance_bef sender_erc20_balance_aft : Option Nat)
    (msg_recipient : Nat)
    (recipient_eth_balance_bef recipient_eth_balance_aft : Option Nat)
    (recipient_erc20_balance_bef recipient_erc20_balance_aft : Option Nat)
    (msg_value calldata_value : Option Nat)
    (msg_sender_owned_token_ids : Option (List Nat)) : List String :=
  [tx_hash,
   Nat.repr derivation_number,
   Address.display msg_sender,
   str_wei_to_eth (Nat.repr (sender_eth_balance_bef.getD 0)),
   str_wei_to_eth (Nat.repr (sender_eth_balance_aft.getD 0)),
   str_wei_to_eth (Nat.repr (sender_erc20_balance_bef.getD 0)),
   str_wei_to_eth (Nat.repr (sender_erc20_balance_aft.getD 0)),
   Address.display msg_recipient,
   str_wei_to_eth (Nat.repr (recipient_eth_balance_bef.getD 0)),
   str_wei_to_eth (Nat.repr (recipient_eth_balance_aft.getD 0)),
   str_wei_to_eth (Nat.repr (recipient_erc20_balance_bef.getD 0)),
   str_wei_to_eth (Nat.repr (recipient_erc20_balance_aft.getD 0)),
   call_function,
   str_wei_to_eth (Nat.repr (msg_value.getD 0)),
   str_wei_to_eth (Nat.repr (calldata_value.getD 0)),
   (msg_sender_owned_token_ids.map
     (fun v => String.intercalate "," (v.map Nat.repr))).getD "",
   tx_fee,
   gas_price,
   gas_used,
   receipt_json_str]

/-- Outcome of one `write_to_csv` call: a normal return, or the
`panic!("Headers length or content order mismatch")` hard stop. -/
inductive WriteOutcome where
  | ok : WriteOutcome
  | headerMismatchPanic : WriteOutcome
deriving DecidableEq, Repr

/-- Model of `write_to_csv` (`src/file.rs` lines 113–230) acting on a ledger
file modelled as `Option (List (List String))`: `none` when the path does not
exist, otherwise the parsed CSV rows (header first).  When the file exists
its header row is read and checked against `expected_headers`; a mismatch
panics before the file is opened for writing, leaving the contents
untouched.  Otherwise the data row is appended (the header is written first
for a fresh file) and flushed. -/
def write_to_csv (fs : Option (List (List String)))
    (tx_hash gas_price gas_used tx_fee receipt_json_str call_function : String)
    (derivation_number : Nat) (msg_sender : Nat)
    (sender_eth_balance_bef sender_eth_balance_aft : Option Nat)
    (sender_erc20_balance_bef sender_erc20_balance_aft : Option Nat)
    (msg_recipient : Nat)
    (recipient_eth_balance_bef recipient_eth_balance_aft : Option Nat)
    (recipient_erc20_balance_bef recipient_erc20_balance_aft : Option Nat)
    (msg_value calldata_value : Option Nat)
    (msg_sender_owned_token_ids : Option (List Nat)) :
    WriteOutcome × Option (List (List String)) :=
  let row := ledgerRow tx_hash gas_price gas_used tx_fee receipt_json_str
    call_function derivation_number msg_sender
    sender_eth_balance_bef sender_eth_balance_aft
    sender_erc20_balance_bef sender_erc20_balance_aft
    msg_recipient
    recipient_eth_balance_bef recipient_eth_balance_aft
    recipient_erc20_balance_bef recipient_erc20_balance_aft
    msg_value calldata_value msg_sender_owned_token_ids
  match fs with
  | some rows =>
    let headers_read := rows.headD []
    if header_mismatch headers_read then (.headerMismatchPanic, some rows)
    else (.ok, some (rows ++ [row]))
  | none => (.ok, some [expected_headers, row])

/-- Outcome of the derivation-resolution prefix of `PurseCommand::execute`:
a resolved index, or the fatal `No recorded derivation numbers found` error
for an existing file with zero data rows. -/
inductive DerivOutcome where
  | ok : Nat → DerivOutcome
  | emptyLedgerError : DerivOutcome
deriving DecidableEq, Repr

/-- Model of the derivation-resolution prefix of `PurseCommand::execute`
(`src/cli/commands.rs` lines 47–77).  The file argument is `none` when
`read_from_csv` fails (path absent), otherwise the derivation column of the
parsed records (each a `u32`, hence `< 2^32`).  An unreadable/absent file
keeps the caller-supplied argument (default 0); an existing file with zero
records is fatal; otherwise the records are sorted ascending
(`Vec::sort`, modelled by the stable `List.insertionSort`) and the last
(largest) entry plus one is used when the argument is the `0` sentinel
(release-mode `u32` addition wraps modulo `2^32`), while a nonzero argument
is kept verbatim. -/
def resolve_derivation (file : Option (List Nat)) (derivation_num_arg : Nat) :
    DerivOutcome :=
  match file with
  | none => .ok derivation_num_arg
  | some derivation_numbers =>
    if derivation_numbers.length = 0 then .emptyLedgerError
    else
      let sorted := List.insertionSort (fun a b => a ≤ b) derivation_numbers
      let highest := sorted.getLast?.getD 0
      if derivation_num_arg = 0 then .ok ((highest + 1) % 2 ^ 32)
      else .ok derivation_num_arg

/-- Observable effects of the orchestrator after the invocation is built
(`src/cli/commands.rs` lines 121–191). -/
inductive Effect where
  | nativeBalanceQuery : Effect
  | erc20BalanceQuery : Effect
  | ownedQuery : Effect
  | executeCall : Effect
  | ledgerAppend : Effect
  | printResult : Effect
deriving DecidableEq, Repr

/-- Result shapes of `Purse404Results` (`purse_executor.rs` lines 170–177);
only `stateChangeResult` carries a receipt. -/
inductive ExecResultShape where
  | addressResult : ExecResultShape
  | u256Result : ExecResultShape
  | u256VecResult : ExecResultShape
  | stringResult : ExecResultShape
  | stringVecResult : ExecResultShape
  | stateChangeResult : ExecResultShape
deriving DecidableEq, Repr

/-- Effect trace of `PurseCommand::execute` from the pre-execution balance
snapshot to the end (`src/cli/commands.rs` lines 121–191), as a function of
the shape of the execution result.  Lines 121–124 take the four before
balances unconditionally; the match on `tx_result` then either prints the
decoded read-only result, or (state-change case, lines 151–187) queries the
owned token IDs and the four after balances and appends the ledger row. -/
def purse_command_effects (tx_result : ExecResultShape) : List Effect :=
  [.nativeBalanceQuery, .erc20BalanceQuery, .nativeBalanceQuery, .erc20BalanceQuery]
    ++ [.executeCall]
    ++ match tx_result with
       | .stateChangeResult =>
         [.ownedQuery, .nativeBalanceQuery, .erc20BalanceQuery,
          .nativeBalanceQuery, .erc20BalanceQuery, .ledgerAppend]
       | _ => [.printResult]

/-- Count of balance queries (native or ERC-20) in an effect trace. -/
def balance_query_count (es : List Effect) : Nat :=
  es.count .nativeBalanceQuery + es.count .erc20BalanceQuery

/-- Count of ledger writes in an effect trace. -/
def ledger_write_count (es : List Effect) : Nat :=
  es.count .ledgerAppend

theorem mem_le_getLast_of_sorted {l : List Nat} (hs : l.Sorted (· ≤ ·)) {x : Nat}
    (hx : x ∈ l) (h : l ≠ []) : x ≤ l.getLast h := by
  induction l with
  | nil => simp at hx
  | cons a t ih =>
    rcases List.sorted_cons.mp hs with ⟨ha, ht⟩
    cases t with
    | nil =>
      simp at hx
      simp [hx, List.getLast]
    | cons b t' =>
      rw [List.getLast_cons (by simp)]
      rcases List.mem_cons.mp hx with rfl | hxt
      · exact ha _ (List.getLast_mem (by simp))
      · exact ih ht hxt (by simp)

theorem insertionSort_getLast_eq_max (ds : List Nat) (m : Nat)
    (hmem : m ∈ ds) (hub : ∀ x ∈ ds, x ≤ m) :
    (List.insertionSort (fun a b => a ≤ b) ds).getLast?.getD 0 = m := by
  have hperm := List.perm_insertionSort (fun a b => a ≤ b) ds
  have hne : List.insertionSort (fun a b => a ≤ b) ds ≠ [] := by
    intro hnil
    rw [hnil] at hperm
    rw [hperm.symm.eq_nil] at hmem
    simp at hmem
  have hsorted : (List.insertionSort (fun a b => a ≤ b) ds).Sorted (· ≤ ·) :=
    List.sorted_insertionSort (fun a b => a ≤ b) ds
  rw [List.getLast?_eq_getLast _ hne]
  simp only [Option.getD_some]
  have hlast_mem := List.getLast_mem hne
  have h1 : (List.insertionSort (fun a b => a ≤ b) ds).getLast hne ≤ m :=
    hub _ (hperm.mem_iff.mp hlast_mem)
  have h2 : m ≤ (List.insertionSort (fun a b => a ≤ b) ds).getLast hne :=
    mem_le_getLast_of_sorted hsorted (hperm.mem_iff.mpr hmem) hne
  exact le_antisymm h1 h2

/-- C1: on a ledger with at least one data row, a caller-supplied derivation
argument of 0 (the sentinel) resolves to the maximum recorded derivation
index plus one, and an explicit nonzero argument resolves to itself
regardless of the recorded indices; in particular rows [3, 1, 7, 2] with
argument 0 resolve to 8. -/
theorem resolve_derivation_sentinel_and_override (ds : List Nat) (m arg : Nat)
    (hmem : m ∈ ds) (hub : ∀ x ∈ ds, x ≤ m) (hlt : m + 1 < 2 ^ 32)
    (harg : arg ≠ 0) :
    resolve_derivation (some ds) 0 = .ok (m + 1)
      ∧ resolve_derivation (some ds) arg = .ok arg
      ∧ resolve_derivation (some [3, 1, 7, 2]) 0 = .ok 8 := by
  have hne : ds ≠ [] := by intro h; subst h; simp at hmem
  have hlen : ¬ ds.length = 0 := by simpa [List.length_eq_zero] using hne
  refine ⟨?_, ?_, by decide⟩
  · have hmax := insertionSort_getLast_eq_max ds m hmem hub
    simp [resolve_derivation, hlen, hmax, Nat.mod_eq_of_lt hlt]
    omega
  · simp [resolve_derivation, hlen, harg]

/-- Witness for C1 at the spec's concrete inputs: rows [3, 1, 7, 2] with the
0 sentinel resolve to 8, and the explicit argument 5 overrides. -/
theorem resolve_derivation_sentinel_and_override_witness :
    resolve_derivation (some [3, 1, 7, 2]) 0 = .ok (7 + 1)
      ∧ resolve_derivation (some [3, 1, 7, 2]) 5 = .ok 5 :=
  ⟨(resolve_derivation_sentinel_and_override [3, 1, 7, 2] 7 5 (by decide)
      (by decide) (by decide) (by decide)).1,
   (resolve_derivation_sentinel_and_override [3, 1, 7, 2] 7 5 (by decide)
      (by decide) (by decide) (by decide)).2.1⟩

/-- C5: derivation resolution on a nonexistent ledger path returns 0 (with
the default 0 argument), while an existing ledger file that parses to zero
data rows — a file holding only the header — fails with the fatal
no-recorded-derivations error, for every caller argument. -/
theorem resolve_derivation_absent_and_empty :
    resolve_derivation none 0 = .ok 0
      ∧ ∀ arg : Nat, resolve_derivation (some []) arg = .emptyLedgerError :=
  ⟨rfl, fun _ => rfl⟩

/-- C3: for `mintERC721`, the validator that the live pipeline imports
(`src/contract/purse_executor.rs`) accepts exactly a present calldata list
of length 1 — any other length or absent calldata fails — while the dead
historical snapshot in `src/cli/validate.rs` instead requires length 2. -/
theorem validate_mintERC721_single_argument :
    (∀ calldata, validate_purse_calldata "mintERC721" calldata = .ok ()
      ↔ ∃ data, calldata = some data ∧ data.length = 1)
      ∧ (∀ data : List String,
          validate_purse_calldata_cli_snapshot "mintERC721" (some data) = .ok ()
            ↔ data.length = 2) := by
  constructor
  · intro calldata
    cases calldata with
    | none => simp [validate_purse_calldata]
    | some data =>
      by_cases h : data.length = 1 <;> simp [validate_purse_calldata, h]
  · intro data
    by_cases h : data.length = 2 <;> simp [validate_purse_calldata_cli_snapshot, h]

/-- C9: for the 0-arity functions `address`, `minted` and `mintingCost` the
validator succeeds exactly when the calldata container is absent; a
present-but-empty list fails with the `Unsupported function` report. -/
theorem validate_zero_arity_iff_absent :
    (∀ cd, validate_purse_calldata "address" cd = .ok () ↔ cd = none)
      ∧ (∀ cd, validate_purse_calldata "minted" cd = .ok () ↔ cd = none)
      ∧ (∀ cd, validate_purse_calldata "mintingCost" cd = .ok () ↔ cd = none)
      ∧ validate_purse_calldata "address" (some []) =
          .error "Unsupported function: address" := by
  refine ⟨?_, ?_, ?_, by rfl⟩ <;>
    · intro cd
      cases cd with
      | none => simp [validate_purse_calldata]
      | some data => simp [validate_purse_calldata]

/-- C7: `transfer_or_mint_recipient_n_calldata` yields (zero address,
`calldata[0]` as a 256-bit integer) for `mintERC721`, (`calldata[0]` as an
address, `calldata[1]` as a 256-bit integer) for `transfer` and `mint`, and
(zero address, zero) for every other function name (for `balanceOf`/`owned`
provided the indexed slot exists); the spec's concrete `transfer` example
with the 1e18 decimal amount is extracted without precision loss. -/
theorem transfer_or_mint_extraction (cd : List String) (fn : String) :
    (∀ s0 v, cd[0]? = some s0 → U256.fromDecStr s0 = some v →
        transfer_or_mint_recipient_n_calldata "mintERC721" cd = some (Address.zero, v))
    ∧ (∀ s0 s1 r v, cd[0]? = some s0 → cd[1]? = some s1 →
        Address.fromStr s0 = some r → U256.fromDecStr s1 = some v →
        transfer_or_mint_recipient_n_calldata "transfer" cd = some (r, v)
        ∧ transfer_or_mint_recipient_n_calldata "mint" cd = some (r, v))
    ∧ (fn ≠ "balanceOf" → fn ≠ "owned" → fn ≠ "mintERC721" → fn ≠ "transfer" →
        fn ≠ "mint" →
        transfer_or_mint_recipient_n_calldata fn cd = some (Address.zero, 0))
    ∧ (∀ s0, cd[0]? = some s0 →
        transfer_or_mint_recipient_n_calldata "balanceOf" cd = some (Address.zero, 0)
        ∧ transfer_or_mint_recipient_n_calldata "owned" cd = some (Address.zero, 0))
    ∧ transfer_or_mint_recipient_n_calldata "transfer"
        ["0xdF7eD90AC34a1492fD0240ea385bab6872a96527", "1000000000000000000"]
      = some (1275933742817186040042127941736490456699141448999, 1000000000000000000) := by
  refine ⟨?_, ?_, ?_, ?_, by rfl⟩
  · intro s0 v h0 hv
    simp [transfer_or_mint_recipient_n_calldata, destruct_purse_calldata, h0, hv]
  · intro s0 s1 r v h0 h1 hr hv
    constructor <;>
      simp [transfer_or_mint_recipient_n_calldata, destruct_purse_calldata, h0, h1, hr, hv]
  · intro h1 h2 h3 h4 h5
    have hd : destruct_purse_calldata fn cd =
        some (none, none, none, none, none, none, none) := by
      unfold destruct_purse_calldata
      split
      · exact absurd rfl h1
      · exact absurd rfl h2
      · exact absurd rfl h3
      · exact absurd rfl h4
      · exact absurd rfl h5
      · rfl
    simp only [transfer_or_mint_recipient_n_calldata, hd]
  · intro s0 h0
    constructor <;>
      simp [transfer_or_mint_recipient_n_calldata, destruct_purse_calldata, h0]

/-- Witness for C7 at concrete inputs: a `mintERC721` single-value
extraction, the default pair for an unrelated function name, and the
zero pair for `balanceOf`. -/
theorem transfer_or_mint_extraction_witness :
    transfer_or_mint_recipient_n_calldata "mintERC721" ["7"] = some (Address.zero, 7)
      ∧ transfer_or_mint_recipient_n_calldata "foo" [] = some (Address.zero, 0)
      ∧ transfer_or_mint_recipient_n_calldata "balanceOf"
          ["0xdF7eD90AC34a1492fD0240ea385bab6872a96527"] = some (Address.zero, 0) :=
  ⟨(transfer_or_mint_extraction ["7"] "foo").1 "7" 7 rfl rfl,
   (transfer_or_mint_extraction [] "foo").2.2.1 (by simp) (by simp) (by simp)
     (by simp) (by simp),
   ((transfer_or_mint_extraction ["0xdF7eD90AC34a1492fD0240ea385bab6872a96527"]
       "foo").2.2.2.1 "0xdF7eD90AC34a1492fD0240ea385bab6872a96527" rfl).1⟩

/-- C8 counterexample: for `transfer` with a well-formed recipient and a
malformed amount string, the decode path the pipeline runs first
(`transfer_or_mint_recipient_n_calldata`) does not return a decode error at
all — it panics on `unwrap` (the modelled `none`), an uncontrolled abort. -/
theorem malformed_argument_abort_counterexample :
    transfer_or_mint_recipient_n_calldata "transfer"
      ["0xdF7eD90AC34a1492fD0240ea385bab6872a96527", "not-a-number"] = none := by
  rfl

/-- C8 (amended): a calldata string that fails to parse is never silently
replaced by a default, but the failure mode differs by function:
`Purse404FunctionCall::from_data` returns the propagated parse error (with
no explicit position/raw-value payload), while
`transfer_or_mint_recipient_n_calldata` — which the pipeline invokes before
`from_data` — panics on `unwrap` instead of returning an error. -/
theorem malformed_argument_handling (s0 s1 : String) (mv : Nat) (w : Wallet) :
    (Address.fromStr s0 = none →
        Purse404FunctionCall.from_data "transfer" mv [s0, s1] w = .parseError
        ∧ transfer_or_mint_recipient_n_calldata "transfer" [s0, s1] = none)
    ∧ (U256.fromDecStr s1 = none →
        Purse404FunctionCall.from_data "transfer" mv [s0, s1] w = .parseError
        ∧ transfer_or_mint_recipient_n_calldata "transfer" [s0, s1] = none)
    ∧ (U256.fromDecStr s0 = none →
        Purse404FunctionCall.from_data "mintERC721" mv [s0] w = .parseError
        ∧ transfer_or_mint_recipient_n_calldata "mintERC721" [s0] = none) := by
  refine ⟨?_, ?_, ?_⟩
  · intro h
    constructor <;>
      simp [Purse404FunctionCall.from_data, transfer_or_mint_recipient_n_calldata,
        destruct_purse_calldata, h]
  · intro h
    cases ha : Address.fromStr s0 <;> constructor <;>
      simp [Purse404FunctionCall.from_data, transfer_or_mint_recipient_n_calldata,
        destruct_purse_calldata, ha, h]
  · intro h
    constructor <;>
      simp [Purse404FunctionCall.from_data, transfer_or_mint_recipient_n_calldata,
        destruct_purse_calldata, h]

/-- Witness for C8 (amended) at concrete malformed strings. -/
theorem malformed_argument_handling_witness :
    Purse404FunctionCall.from_data "transfer" 0 ["zz", "1"] (Wallet.mk 0) = .parseError
      ∧ transfer_or_mint_recipient_n_calldata "transfer" ["zz", "1"] = none :=
  (malformed_argument_handling "zz" "1" 0 (Wallet.mk 0)).1 rfl

theorem validate_unsupported_some (fn : String) (cd : List String)
    (h1 : fn ≠ "balanceOf") (h2 : fn ≠ "owned") (h3 : fn ≠ "mintERC721")
    (h4 : fn ≠ "transfer") (h5 : fn ≠ "mint") :
    validate_purse_calldata fn (some cd) =
      .error ("Unsupported function: " ++ fn) := by
  unfold validate_purse_calldata
  split
  all_goals simp_all

theorem validate_some_ok_characterization (fn : String) (cd : List String)
    (h : validate_purse_calldata fn (some cd) = .ok ()) :
    ((fn = "balanceOf" ∨ fn = "owned" ∨ fn = "mintERC721") ∧ cd.length = 1)
      ∨ ((fn = "transfer" ∨ fn = "mint") ∧ cd.length = 2) := by
  by_cases h1 : fn = "balanceOf"
  · subst h1
    refine Or.inl ⟨Or.inl rfl, ?_⟩
    by_contra hc; simp [validate_purse_calldata, hc] at h
  by_cases h2 : fn = "owned"
  · subst h2
    refine Or.inl ⟨Or.inr (Or.inl rfl), ?_⟩
    by_contra hc; simp [validate_purse_calldata, hc] at h
  by_cases h3 : fn = "mintERC721"
  · subst h3
    refine Or.inl ⟨Or.inr (Or.inr rfl), ?_⟩
    by_contra hc; simp [validate_purse_calldata, hc] at h
  by_cases h4 : fn = "transfer"
  · subst h4
    refine Or.inr ⟨Or.inl rfl, ?_⟩
    by_contra hc; simp [validate_purse_calldata, hc] at h
  by_cases h5 : fn = "mint"
  · subst h5
    refine Or.inr ⟨Or.inr rfl, ?_⟩
    by_contra hc; simp [validate_purse_calldata, hc] at h
  rw [validate_unsupported_some fn cd h1 h2 h3 h4 h5] at h
  simp at h

theorem list_of_length_two (cd : List String) (hlen : cd.length = 2) :
    ∃ a b, cd = [a, b] := by
  cases cd with
  | nil => simp at hlen
  | cons a t =>
    cases t with
    | nil => simp at hlen
    | cons b t2 =>
      cases t2 with
      | nil => exact ⟨a, b, rfl⟩
      | cons c t3 => simp at hlen

/-- C10: `from_data` and `destruct_purse_calldata` index `calldata[0]` and
`calldata[1]` with no length check, so a list shorter than the function's
arity panics (the modelled `panic`/`none` outcomes); under the hypothesis
that `validate_purse_calldata` succeeded on the same function name and
calldata, no such index panic is reachable. -/
theorem validated_calldata_no_index_panic :
    (∀ fn cd mv w, validate_purse_calldata fn (some cd) = .ok () →
        Purse404FunctionCall.from_data fn mv cd w ≠ BuildOutcome.panic
        ∧ destruct_purse_calldata fn cd ≠ none)
    ∧ (∀ mv w, Purse404FunctionCall.from_data "transfer" mv [] w = .panic)
    ∧ (∀ mv w, Purse404FunctionCall.from_data "transfer" mv
        ["0xdF7eD90AC34a1492fD0240ea385bab6872a96527"] w = .panic)
    ∧ destruct_purse_calldata "transfer" [] = none
    ∧ destruct_purse_calldata "balanceOf" [] = none := by
  refine ⟨?_, fun mv w => rfl, fun mv w => rfl, rfl, rfl⟩
  intro fn cd mv w h
  rcases validate_some_ok_characterization fn cd h with ⟨hf, hlen⟩ | ⟨hf, hlen⟩
  · obtain ⟨a, rfl⟩ := List.length_eq_one.mp hlen
    rcases hf with rfl | rfl | rfl
    · refine ⟨?_, by simp [destruct_purse_calldata]⟩
      cases hp : Address.fromStr a <;>
        simp [Purse404FunctionCall.from_data, hp]
    · refine ⟨?_, by simp [destruct_purse_calldata]⟩
      cases hp : Address.fromStr a <;>
        simp [Purse404FunctionCall.from_data, hp]
    · refine ⟨?_, by simp [destruct_purse_calldata]⟩
      cases hp : U256.fromDecStr a <;>
        simp [Purse404FunctionCall.from_data, hp]
  · obtain ⟨a, b, rfl⟩ := list_of_length_two cd hlen
    rcases hf with rfl | rfl
    · refine ⟨?_, by simp [destruct_purse_calldata]⟩
      cases hp : Address.fromStr a <;> cases hq : U256.fromDecStr b <;>
        simp [Purse404FunctionCall.from_data, hp, hq]
    · refine ⟨?_, by simp [destruct_purse_calldata]⟩
      cases hp : Address.fromStr a <;> cases hq : U256.fromDecStr b <;>
        simp [Purse404FunctionCall.from_data, hp, hq]

/-- Witness for C10: validation of `transfer` with a two-element calldata
list succeeds, and then neither the builder nor the destructurer hits an
index panic on that same input. -/
theorem validated_calldata_no_index_panic_witness :
    Purse404FunctionCall.from_data "transfer" 0 ["x", "y"] (Wallet.mk 0)
        ≠ BuildOutcome.panic
      ∧ destruct_purse_calldata "transfer" ["x", "y"] ≠ none :=
  validated_calldata_no_index_panic.1 "transfer" ["x", "y"] 0 (Wallet.mk 0) rfl

theorem zip_all_beq_iff (a b : List String) (hlen : a.length = b.length) :
    ((a.zip b).all (fun p => p.1 == p.2) = true) ↔ a = b := by
  induction a generalizing b with
  | nil =>
    cases b with
    | nil => simp
    | cons y ys => simp at hlen
  | cons x xs ih =>
    cases b with
    | nil => simp at hlen
    | cons y ys =>
      simp at hlen
      simp only [List.zip_cons_cons, List.all_cons, Bool.and_eq_true, beq_iff_eq,
        List.cons.injEq]
      rw [ih ys hlen]

theorem header_mismatch_false_iff (hs : List String) :
    header_mismatch hs = false ↔ hs = expected_headers := by
  unfold header_mismatch
  constructor
  · intro h
    rw [Bool.or_eq_false_iff] at h
    obtain ⟨hl, ha⟩ := h
    have hlen : hs.length = expected_headers.length := by simpa using hl
    exact (zip_all_beq_iff hs expected_headers hlen).mp (by simpa using ha)
  · rintro rfl
    rfl

/-- C2: appending through `write_to_csv` to an existing ledger file whose
header row differs from the fixed 20-column schema (in length, names or
order) hits the header-mismatch panic — a fatal stop — and the file's rows
are left exactly as they were: nothing is appended or modified. -/
theorem write_to_csv_schema_mismatch
    (rows : List (List String))
    (tx_hash gas_price gas_used tx_fee receipt_json_str call_function : String)
    (derivation_number msg_sender : Nat)
    (seb sea s2b s2a : Option Nat) (msg_recipient : Nat)
    (reb rea r2b r2a : Option Nat) (mval cval : Option Nat)
    (ids : Option (List Nat))
    (hmm : rows.headD [] ≠ expected_headers) :
    write_to_csv (some rows) tx_hash gas_price gas_used tx_fee receipt_json_str
        call_function derivation_number msg_sender seb sea s2b s2a msg_recipient
        reb rea r2b r2a mval cval ids
      = (.headerMismatchPanic, some rows) := by
  have hbm : header_mismatch (rows.headD []) = true := by
    cases hb : header_mismatch (rows.headD []) with
    | true => rfl
    | false => exact absurd ((header_mismatch_false_iff _).mp hb) hmm
  simp [write_to_csv, hbm]
  simpa using hbm

/-- Witness for C2: a one-row file whose header is a single wrong column. -/
theorem write_to_csv_schema_mismatch_witness :
    write_to_csv (some [["Bad Header"]]) "h" "gp" "gu" "fee" "rj" "transfer" 1 0
        none none none none 0 none none none none none none none
      = (.headerMismatchPanic, some [["Bad Header"]]) :=
  write_to_csv_schema_mismatch [["Bad Header"]] "h" "gp" "gu" "fee" "rj"
    "transfer" 1 0 none none none none 0 none none none none none none none
    (by decide)

/-- C6 counterexample: a read-only invocation (a non-state-change result
shape such as the `U256` result of `minted`) still performs the four
pre-execution balance snapshots of `PurseCommand::execute` lines 121–124:
its effect trace contains 4 balance queries, not 0. -/
theorem read_only_balance_queries_counterexample :
    balance_query_count (purse_command_effects ExecResultShape.u256Result) = 4 := by
  rfl

/-- C6 (amended): for every non-state-change execution result the pipeline
performs zero ledger writes, never queries the owned-token list, and skips
the after-execution snapshot — its full trace is the unconditional
before-execution snapshot (four balance queries), the execution call, and
printing the decoded result. -/
theorem read_only_skips_append_and_after_snapshot (r : ExecResultShape)
    (h : r ≠ ExecResultShape.stateChangeResult) :
    ledger_write_count (purse_command_effects r) = 0
      ∧ purse_command_effects r =
        [Effect.nativeBalanceQuery, Effect.erc20BalanceQuery,
         Effect.nativeBalanceQuery, Effect.erc20BalanceQuery,
         Effect.executeCall, Effect.printResult] := by
  cases r <;> first
    | exact absurd rfl h
    | exact ⟨rfl, rfl⟩

/-- Witness for C6 (amended) at the `U256` result shape. -/
theorem read_only_skips_append_and_after_snapshot_witness :
    ledger_write_count (purse_command_effects ExecResultShape.u256Result) = 0
      ∧ purse_command_effects ExecResultShape.u256Result =
        [Effect.nativeBalanceQuery, Effect.erc20BalanceQuery,
         Effect.nativeBalanceQuery, Effect.erc20BalanceQuery,
         Effect.executeCall, Effect.printResult] :=
  read_only_skips_append_and_after_snapshot ExecResultShape.u256Result (by decide)

/-- C4 counterexample: `write_to_csv` renders the sender with the truncated
`H160` display, so two distinct sender addresses agreeing on their first
two and last two bytes (here `0xdF7e…6527` and the same address with one
middle byte changed) produce bit-identical ledger rows; re-reading the file
therefore cannot yield fields equal to the values passed to append for both
senders. -/
theorem ledger_round_trip_counterexample :
    (1275933742817186040042127941736490456699141448999 : Nat)
        ≠ 1275933742817186040042129150662310071328316155175
      ∧ ledgerRow "h" "gp" "gu" "fee" "rj" "transfer" 1
          1275933742817186040042127941736490456699141448999
          none none none none 0 none none none none none none none
        = ledgerRow "h" "gp" "gu" "fee" "rj" "transfer" 1
          1275933742817186040042129150662310071328316155175
          none none none none 0 none none none none none none none :=
  ⟨by decide, by rfl⟩

/-- C4 (amended): the row assembled by append stores the directly passed
string fields (transaction hash, function name, tx fee, gas price, gas
used, receipt JSON) and the decimal rendering of the derivation index
verbatim in schema order, so those survive the write/read round trip; the
sender and recipient columns, however, hold only the truncated `H160`
display of the addresses, which does not determine the address passed
(distinct addresses can share it), so the address arguments are not
recoverable from the re-read record. -/
theorem ledger_row_field_fidelity
    (tx_hash gas_price gas_used tx_fee receipt_json_str call_function : String)
    (derivation_number msg_sender msg_recipient : Nat)
    (seb sea s2b s2a reb rea r2b r2a mval cval : Option Nat)
    (ids : Option (List Nat)) :
    (ledgerRow tx_hash gas_price gas_used tx_fee receipt_json_str call_function
        derivation_number msg_sender seb sea s2b s2a msg_recipient
        reb rea r2b r2a mval cval ids)[0]? = some tx_hash
    ∧ (ledgerRow tx_hash gas_price gas_used tx_fee receipt_json_str call_function
        derivation_number msg_sender seb sea s2b s2a msg_recipient
        reb rea r2b r2a mval cval ids)[1]? = some (Nat.repr derivation_number)
    ∧ (ledgerRow tx_hash gas_price gas_used tx_fee receipt_json_str call_function
        derivation_number msg_sender seb sea s2b s2a msg_recipient
        reb rea r2b r2a mval cval ids)[2]? = some (Address.display msg_sender)
    ∧ (ledgerRow tx_hash gas_price gas_used tx_fee receipt_json_str call_function
        derivation_number msg_sender seb sea s2b s2a msg_recipient
        reb rea r2b r2a mval cval ids)[7]? = some (Address.display msg_recipient)
    ∧ (ledgerRow tx_hash gas_price gas_used tx_fee receipt_json_str call_function
        derivation_number msg_sender seb sea s2b s2a msg_recipient
        reb rea r2b r2a mval cval ids)[12]? = some call_function
    ∧ (ledgerRow tx_hash gas_price gas_used tx_fee receipt_json_str call_function
        derivation_number msg_sender seb sea s2b s2a msg_recipient
        reb rea r2b r2a mval cval ids)[16]? = some tx_fee
    ∧ (ledgerRow tx_hash gas_price gas_used tx_fee receipt_json_str call_function
        derivation_number msg_sender seb sea s2b s2a msg_recipient
        reb rea r2b r2a mval cval ids)[17]? = some gas_price
    ∧ (ledgerRow tx_hash gas_price gas_used tx_fee receipt_json_str call_function
        derivation_number msg_sender seb sea s2b s2a msg_recipient
        reb rea r2b r2a mval cval ids)[18]? = some gas_used
    ∧ (ledgerRow tx_hash gas_price gas_used tx_fee receipt_json_str call_function
        derivation_number msg_sender seb sea s2b s2a msg_recipient
        reb rea r2b r2a mval cval ids)[19]? = some receipt_json_str
    ∧ Address.display 1275933742817186040042127941736490456699141448999
        = Address.display 1275933742817186040042129150662310071328316155175
    ∧ (1275933742817186040042127941736490456699141448999 : Nat)
        ≠ 1275933742817186040042129150662310071328316155175 :=
  ⟨rfl, rfl, rfl, rfl, rfl, rfl, rfl, rfl, rfl, rfl, by decide⟩
